import Mathlib

/-!
Shallow embedding of `internal/store/store.go` from the Commerce Control Tower
repository (an in-memory ecommerce store: per-user carts, checkout producing
orders, and an every-Nth-order discount-code lifecycle).

Modelling conventions:
* Go `float64` money amounts become `ℚ`; Go `int` becomes `ℤ`.
* A Go `map[string]CartItem` keyed by SKU becomes a `List CartItem` with
  unique SKUs, in insertion order; `map[string]*Cart` becomes an association
  list `List (String × Cart)`.  Go map iteration order is unspecified, so
  claims about the produced item sequences are stated up to multiset equality.
* `time.Now()` and the `math/rand` source used by `generateDiscountCode` are
  external inputs; they are passed in as explicit parameters (`now : Nat`, and
  the generated code string `codeStr : String`).  The Go function
  `generateDiscountCode` returns `"DISC-"` followed by six random characters
  from `"ABCDEFGHJKLMNPQRSTUVWXYZ23456789"`; nothing checks the result against
  previously issued codes, so the oracle parameter ranges over all strings a
  caller could observe.
* Go methods mutate the shared `MemoryStore` in place; here every operation
  returns its result together with the updated store.  An early `return` with
  an error keeps all mutations performed before that point, exactly as the Go
  code does, so errors are returned as `Except StoreError _ × MemoryStore`.
-/

namespace Store

/-- CartItem mirrors Go `CartItem`: sku, name, unit price, quantity. -/
structure CartItem where
  sku : String
  name : String
  price : ℚ
  quantity : Int
deriving DecidableEq, Repr

/-- Cart mirrors Go `Cart`: the SKU-keyed item map, as a unique-SKU list. -/
structure Cart where
  items : List CartItem
deriving DecidableEq, Repr

/-- Order mirrors Go `Order` (CreatedAt carried as the `now` oracle value). -/
structure Order where
  id : String
  userId : String
  items : List CartItem
  totalAmount : ℚ
  discountCode : String
  discountValue : ℚ
  createdAt : Nat
deriving DecidableEq, Repr

/-- DiscountCode mirrors Go `DiscountCode` (timestamps as oracle values,
`redeemedAt = 0` standing for Go's zero `time.Time`). -/
structure DiscountCode where
  code : String
  percentage : ℚ
  generatedAt : Nat
  redeemedAt : Nat
  isRedeemed : Bool
  eligibleOrderNum : Int
deriving DecidableEq, Repr

/-- Stats mirrors Go `Stats`. -/
structure Stats where
  totalOrders : Int
  totalItemsSold : Int
  grossRevenue : ℚ
  totalDiscountGiven : ℚ
  discountCodes : List DiscountCode
  activeDiscount : Option DiscountCode
deriving DecidableEq, Repr

/-- MemoryStore mirrors the Go `MemoryStore` fields (minus the mutex, which
only serialises calls and has no effect on the sequential semantics). -/
structure MemoryStore where
  carts : List (String × Cart)
  orders : List Order
  discountHistory : List DiscountCode
  activeDiscount : Option DiscountCode
  nthOrderThreshold : Int
  nextEligibleOrder : Int
  totalItemsSold : Int
  grossRevenue : ℚ
  totalDiscount : ℚ
deriving DecidableEq, Repr

/-- The five typed errors declared at the top of store.go. -/
inductive StoreError where
  | cartEmpty
  | discountNotActive
  | discountAlreadyUsed
  | discountMismatch
  | discountNotEligible
deriving DecidableEq, Repr

/-- Association-list read of the Go `carts` map. -/
def lookupCart : List (String × Cart) → String → Option Cart
  | [], _ => none
  | (k, c) :: rest, u => if k = u then some c else lookupCart rest u

/-- Association-list write of the Go `carts` map (replace in place, append if
absent; a Go map write through the stored pointer has the same effect). -/
def setCart : List (String × Cart) → String → Cart → List (String × Cart)
  | [], u, c => [(u, c)]
  | (k, c0) :: rest, u, c =>
      if k = u then (u, c) :: rest else (k, c0) :: setCart rest u c

/-- NewMemoryStore mirrors Go `NewMemoryStore`: a non-positive threshold is
replaced by the default 5. -/
def NewMemoryStore (nthOrder : Int) : MemoryStore :=
  let n := if nthOrder ≤ 0 then 5 else nthOrder
  { carts := []
    orders := []
    discountHistory := []
    activeDiscount := none
    nthOrderThreshold := n
    nextEligibleOrder := n
    totalItemsSold := 0
    grossRevenue := 0
    totalDiscount := 0 }

/-- getOrCreateCart mirrors the Go helper: return the user's cart, creating
an empty entry in the registry when the user has none. -/
def getOrCreateCart (s : MemoryStore) (userID : String) : Cart × MemoryStore :=
  match lookupCart s.carts userID with
  | some c => (c, s)
  | none => ((⟨[]⟩ : Cart), { s with carts := setCart s.carts userID ⟨[]⟩ })

/-- The `cart.Items[item.SKU]` upsert inside Go `AddItem`: if the SKU is
present, add the quantities and overwrite price and name; else insert. -/
def upsertItem : List CartItem → CartItem → List CartItem
  | [], item => [item]
  | x :: xs, item =>
      if x.sku = item.sku then
        { x with quantity := x.quantity + item.quantity
                 price := item.price
                 name := item.name } :: xs
      else
        x :: upsertItem xs item

/-- AddItem mirrors Go `MemoryStore.AddItem`; note the source performs no
validation of the item (the `todo: add validation` comments notwithstanding):
every item is stored as given. -/
def AddItem (s : MemoryStore) (userID : String) (item : CartItem) :
    Cart × MemoryStore :=
  let cart := (getOrCreateCart s userID).1
  let s1 := (getOrCreateCart s userID).2
  let cart1 : Cart := ⟨upsertItem cart.items item⟩
  (cart1, { s1 with carts := setCart s1.carts userID cart1 })

/-- ViewCart mirrors Go `MemoryStore.ViewCart`. -/
def ViewCart (s : MemoryStore) (userID : String) : Cart × MemoryStore :=
  getOrCreateCart s userID

/-- Sum of quantities, as accumulated into `s.totalItemsSold` by the snapshot
loop of Go `Checkout`. -/
def itemsQuantity (items : List CartItem) : Int :=
  (items.map (·.quantity)).sum

/-- Gross amount of an item list: `Σ float64(quantity) * price`. -/
def itemsGross (items : List CartItem) : ℚ :=
  (items.map (fun it => (it.quantity : ℚ) * it.price)).sum

/-- Go `generateOrderID`: "ord_" plus the current nanosecond timestamp. -/
def generateOrderID (now : Nat) : String :=
  "ord_" ++ toString now

/-- The tail of Go `Checkout` after a (possibly zero) discount was settled:
build the order, append it to the ledger, add to gross revenue, and reset the
user's cart to an empty one (the entry itself remains). -/
def finishCheckout (s : MemoryStore) (userID : String) (items : List CartItem)
    (gross discountApplied : ℚ) (codeUsed : String) (now : Nat) :
    Except StoreError Order × MemoryStore :=
  let order : Order :=
    { id := generateOrderID now
      userId := userID
      items := items
      totalAmount := gross - discountApplied
      discountCode := codeUsed
      discountValue := discountApplied
      createdAt := now }
  (.ok order,
    { s with
        orders := s.orders ++ [order]
        grossRevenue := s.grossRevenue + gross
        carts := setCart s.carts userID ⟨[]⟩ })

/-- Checkout mirrors Go `MemoryStore.Checkout` statement by statement.  Note
that, as in the source, `totalItemsSold` is already incremented by the
snapshot loop before the discount-code checks run, so the discount error
returns keep that increment (state `s2`). -/
def Checkout (s : MemoryStore) (userID discountCode : String) (now : Nat) :
    Except StoreError Order × MemoryStore :=
  let cart := (getOrCreateCart s userID).1
  let s1 := (getOrCreateCart s userID).2
  if cart.items = [] then
    (.error .cartEmpty, s1)
  else
    let items := cart.items
    let gross := itemsGross items
    let s2 := { s1 with totalItemsSold := s1.totalItemsSold + itemsQuantity items }
    if discountCode = "" then
      finishCheckout s2 userID items gross 0 "" now
    else
      match s2.activeDiscount with
      | none => (.error .discountNotActive, s2)
      | some active =>
          if active.isRedeemed = true then
            (.error .discountAlreadyUsed, s2)
          else if active.code ≠ discountCode then
            (.error .discountMismatch, s2)
          else
            let discountApplied := gross * (active.percentage / 100)
            let s3 :=
              { s2 with
                  discountHistory := s2.discountHistory ++
                    [{ active with isRedeemed := true, redeemedAt := now }]
                  activeDiscount := none
                  nextEligibleOrder := s2.nextEligibleOrder + s2.nthOrderThreshold
                  totalDiscount := s2.totalDiscount + discountApplied }
            finishCheckout s3 userID items gross discountApplied active.code now

/-- GenerateDiscount mirrors Go `MemoryStore.GenerateDiscount`; `codeStr` is
the random string produced by `generateDiscountCode`. -/
def GenerateDiscount (s : MemoryStore) (codeStr : String) (now : Nat) :
    Except StoreError DiscountCode × MemoryStore :=
  let totalOrders : Int := (s.orders.length : Int)
  let eligible : Bool := decide (totalOrders ≥ s.nextEligibleOrder)
  let blocked : Bool :=
    match s.activeDiscount with
    | some ad => !ad.isRedeemed
    | none => false
  if (!eligible || blocked) = true then
    (.error .discountNotEligible, s)
  else
    let code : DiscountCode :=
      { code := codeStr
        percentage := 10
        generatedAt := now
        redeemedAt := 0
        isRedeemed := false
        eligibleOrderNum := s.nextEligibleOrder }
    (.ok code, { s with activeDiscount := some code })

/-- Stats mirrors Go `MemoryStore.Stats`: history is the redeemed codes
followed by the active one, if any. -/
def MemoryStore.Stats (s : MemoryStore) : Store.Stats :=
  let history := s.discountHistory ++
    (match s.activeDiscount with
     | some ad => [ad]
     | none => [])
  { totalOrders := (s.orders.length : Int)
    totalItemsSold := s.totalItemsSold
    grossRevenue := s.grossRevenue
    totalDiscountGiven := s.totalDiscount
    discountCodes := history
    activeDiscount := s.activeDiscount }

/-- The public operations of the store, for stating trace-level properties.
`getStats` and `viewCart` are included for completeness of the interface. -/
inductive StoreOp where
  | addItem (userID : String) (item : CartItem)
  | viewCart (userID : String)
  | checkout (userID discountCode : String) (now : Nat)
  | generateDiscount (codeStr : String) (now : Nat)
  | getStats
deriving DecidableEq, Repr

/-- State effect of one public operation. -/
def applyOp (s : MemoryStore) : StoreOp → MemoryStore
  | .addItem u it => (AddItem s u it).2
  | .viewCart u => (ViewCart s u).2
  | .checkout u c n => (Checkout s u c n).2
  | .generateDiscount cs n => (GenerateDiscount s cs n).2
  | .getStats => s

/-- Run a sequence of public operations. -/
def runOps (s : MemoryStore) : List StoreOp → MemoryStore
  | [] => s
  | op :: rest => runOps (applyOp s op) rest

/-- Items sold according to the Order Ledger alone. -/
def ledgerItemsSold (s : MemoryStore) : Int :=
  (s.orders.map (fun o => itemsQuantity o.items)).sum

/-- Pre-discount gross revenue according to the Order Ledger alone. -/
def ledgerGrossRevenue (s : MemoryStore) : ℚ :=
  (s.orders.map (fun o => itemsGross o.items)).sum

/-- Discount granted according to the Order Ledger alone. -/
def ledgerDiscountGiven (s : MemoryStore) : ℚ :=
  (s.orders.map (·.discountValue)).sum

/-- The Go map read `cart.Items[sku]`, on the list representation. -/
def findItem : List CartItem → String → Option CartItem
  | [], _ => none
  | it :: rest, k => if it.sku = k then some it else findItem rest k

/-- A sequence of `AddItem` calls for one user, with no other operation in
between. -/
def addItems (s : MemoryStore) (u : String) : List CartItem → MemoryStore
  | [] => s
  | it :: rest => addItems (AddItem s u it).2 u rest

/-- Specification-side description of discount generation, written from the
words of claim C4: generation succeeds exactly when the number of recorded
orders has reached `nextEligibleOrder` and no active unredeemed code exists;
on success the code carries percentage 10 and
`eligibleOrderNum = nextEligibleOrder` and becomes the single active code;
otherwise nothing changes and `NotEligible` is returned.  To be compared
against `GenerateDiscount`, which is translated from the source. -/
def generateDiscountSpec (s : MemoryStore) (codeStr : String) (now : Nat) :
    Except StoreError DiscountCode × MemoryStore :=
  if ((s.orders.length : Int) ≥ s.nextEligibleOrder ∧
      s.activeDiscount.all (·.isRedeemed) = true) then
    let d : DiscountCode :=
      { code := codeStr
        percentage := 10
        generatedAt := now
        redeemedAt := 0
        isRedeemed := false
        eligibleOrderNum := s.nextEligibleOrder }
    (.ok d, { s with activeDiscount := some d })
  else
    (.error .discountNotEligible, s)

/-- Does this operation call `GenerateDiscount` with the given code string? -/
def opGenerates (c : String) : StoreOp → Bool
  | .generateDiscount cs _ => cs = c
  | _ => false

/-- No active discount slot holds the string `c` (and any active code is
still unredeemed, as the store maintains). -/
def activeAvoids (c : String) (s : MemoryStore) : Prop :=
  ∀ ad, s.activeDiscount = some ad → ad.isRedeemed = false ∧ ad.code ≠ c

/-- The operation is a checkout that successfully redeemed a discount code
when run in state `s`. -/
def opIsSuccessfulRedemption (s : MemoryStore) : StoreOp → Prop
  | .checkout u c n => c ≠ "" ∧ (Checkout s u c n).1.isOk = true
  | _ => False

/-- A sample valid item. -/
def itemA : CartItem := ⟨"SKU1", "Widget", 10, 1⟩

/-- A second sample valid item. -/
def itemB : CartItem := ⟨"SKU2", "Cable", 5, 2⟩

/-- An item violating every constraint of the spec: empty sku, non-positive
price and quantity. -/
def invalidItem : CartItem := ⟨"", "Bad", -1, -2⟩

/-- A $50 single item, as in the spec's concrete discount scenario. -/
def itemC : CartItem := ⟨"SKU3", "Bag", 50, 1⟩

/-- A store holding just a one-item cart for user "u". -/
def c5Store : MemoryStore := (AddItem (NewMemoryStore 3) "u" itemA).2

/-- A reachable store with an active 10% code and a $50 cart for `u2`:
threshold 1, one checkout, a generated code, then the $50 item added. -/
def c6Store : MemoryStore :=
  runOps (NewMemoryStore 1)
    [.addItem "u1" itemA, .checkout "u1" "" 0,
     .generateDiscount "DISC-X" 1, .addItem "u2" itemC]

/-- A reachable store with one completed order and an active discount code:
threshold 1, one $10 checkout, a generated code, and a $10 cart for `u2`. -/
def c1Store : MemoryStore :=
  runOps (NewMemoryStore 1)
    [.addItem "u1" itemA, .checkout "u1" "" 0,
     .generateDiscount "DISC-AAAAAA" 1, .addItem "u2" itemB]

/-- A trace in which the random code generator issues the same string twice:
the code is generated, redeemed, generated again (the source never checks new
codes against history), and a cart is prepared for a second redemption. -/
def c7Trace : List StoreOp :=
  [.addItem "u" itemA, .checkout "u" "" 0,
   .generateDiscount "DISC-AAAAAA" 1, .addItem "u" itemA,
   .checkout "u" "DISC-AAAAAA" 2,
   .generateDiscount "DISC-AAAAAA" 3, .addItem "u" itemA]

/-! Basic lemmas about the cart registry representation. -/

@[simp]
theorem lookupCart_setCart_self (m : List (String × Cart)) (u : String) (c : Cart) :
    lookupCart (setCart m u c) u = some c := by
  induction m with
  | nil => simp [setCart, lookupCart]
  | cons p rest ih =>
      obtain ⟨k, c0⟩ := p
      by_cases h : k = u
      · simp [setCart, lookupCart, h]
      · simp [setCart, lookupCart, h, ih]

theorem setCart_of_lookup_none (m : List (String × Cart)) (u : String) (c : Cart)
    (h : lookupCart m u = none) : setCart m u c = m ++ [(u, c)] := by
  induction m with
  | nil => simp [setCart]
  | cons p rest ih =>
      obtain ⟨k, c0⟩ := p
      by_cases hk : k = u
      · simp [lookupCart, hk] at h
      · simp only [lookupCart, if_neg hk] at h
        simp [setCart, hk, ih h]

@[simp]
theorem getOrCreateCart_lookup (s : MemoryStore) (u : String) :
    lookupCart (getOrCreateCart s u).2.carts u = some (getOrCreateCart s u).1 := by
  cases h : lookupCart s.carts u with
  | none => simp [getOrCreateCart, h]
  | some c => simp [getOrCreateCart, h]

@[simp]
theorem getOrCreateCart_activeDiscount (s : MemoryStore) (u : String) :
    (getOrCreateCart s u).2.activeDiscount = s.activeDiscount := by
  cases h : lookupCart s.carts u <;> simp [getOrCreateCart, h]

@[simp]
theorem getOrCreateCart_orders (s : MemoryStore) (u : String) :
    (getOrCreateCart s u).2.orders = s.orders := by
  cases h : lookupCart s.carts u <;> simp [getOrCreateCart, h]

@[simp]
theorem getOrCreateCart_discountHistory (s : MemoryStore) (u : String) :
    (getOrCreateCart s u).2.discountHistory = s.discountHistory := by
  cases h : lookupCart s.carts u <;> simp [getOrCreateCart, h]

@[simp]
theorem getOrCreateCart_nextEligibleOrder (s : MemoryStore) (u : String) :
    (getOrCreateCart s u).2.nextEligibleOrder = s.nextEligibleOrder := by
  cases h : lookupCart s.carts u <;> simp [getOrCreateCart, h]

@[simp]
theorem getOrCreateCart_nthOrderThreshold (s : MemoryStore) (u : String) :
    (getOrCreateCart s u).2.nthOrderThreshold = s.nthOrderThreshold := by
  cases h : lookupCart s.carts u <;> simp [getOrCreateCart, h]

@[simp]
theorem getOrCreateCart_totalItemsSold (s : MemoryStore) (u : String) :
    (getOrCreateCart s u).2.totalItemsSold = s.totalItemsSold := by
  cases h : lookupCart s.carts u <;> simp [getOrCreateCart, h]

@[simp]
theorem getOrCreateCart_grossRevenue (s : MemoryStore) (u : String) :
    (getOrCreateCart s u).2.grossRevenue = s.grossRevenue := by
  cases h : lookupCart s.carts u <;> simp [getOrCreateCart, h]

@[simp]
theorem getOrCreateCart_totalDiscount (s : MemoryStore) (u : String) :
    (getOrCreateCart s u).2.totalDiscount = s.totalDiscount := by
  cases h : lookupCart s.carts u <;> simp [getOrCreateCart, h]

theorem getOrCreateCart_of_lookup_none (s : MemoryStore) (u : String)
    (h : lookupCart s.carts u = none) :
    getOrCreateCart s u = ((⟨[]⟩ : Cart), { s with carts := setCart s.carts u ⟨[]⟩ }) := by
  simp [getOrCreateCart, h]

/-! Case analysis lemmas for `Checkout`. -/

theorem Checkout_carts_cases (s : MemoryStore) (u code : String) (n : Nat) :
    (Checkout s u code n).2.carts = (getOrCreateCart s u).2.carts ∨
    (Checkout s u code n).2.carts = setCart (getOrCreateCart s u).2.carts u ⟨[]⟩ := by
  simp only [Checkout, finishCheckout]
  split
  · left; rfl
  · split
    · right; rfl
    · split
      · left; rfl
      · split
        · left; rfl
        · split
          · left; rfl
          · right; rfl

/-! Claim theorems for C1, C2, C3 and C10. -/

/-- C2 (code bug): `AddItem` performs no validation at all.  An item with an
empty sku, negative price and negative quantity is stored verbatim in the
cart and echoed back to the caller, instead of being rejected with an
`InvalidItem` error (no such error even exists in the source) while leaving
the cart untouched. -/
theorem addItem_accepts_invalid_item :
    (AddItem (NewMemoryStore 3) "u" invalidItem).2.carts =
      [("u", (⟨[invalidItem]⟩ : Cart))] ∧
    (AddItem (NewMemoryStore 3) "u" invalidItem).1 = (⟨[invalidItem]⟩ : Cart) :=
  ⟨rfl, rfl⟩

/-- C1 (code bug): a checkout that fails with `Mismatch` is not atomic.  In
the reachable store `c1Store` (one order recorded, code "DISC-AAAAAA" active,
a two-unit cart for user u2), checking out u2 with the wrong code string
returns the `Mismatch` error yet bumps `totalItemsSold` from 1 to 3, because
the source increments the counter in the snapshot loop before validating the
discount code.  The same holds for `NotActive` failures. -/
theorem checkout_error_mutates_totalItemsSold :
    (Checkout c1Store "u2" "DISC-WRONG" 2).1 = .error .discountMismatch ∧
    c1Store.totalItemsSold = 1 ∧
    (Checkout c1Store "u2" "DISC-WRONG" 2).2.totalItemsSold = 3 ∧
    (Checkout (NewMemoryStore 1) "u1" "" 0).1 = .error .cartEmpty :=
  ⟨rfl, by decide, by decide, rfl⟩

/-- C3 (code bug): after the failed (Mismatch) checkout above, the running
counter `totalItemsSold` reads 3 while re-deriving the same quantity from the
Order Ledger yields 1, so the claimed ledger-consistency invariant does not
hold.  (`grossRevenue` and `totalDiscount` are only updated on success and do
still agree with the ledger at this state.) -/
theorem totalItemsSold_diverges_from_ledger :
    (Checkout c1Store "u2" "DISC-WRONG" 2).2.totalItemsSold = 3 ∧
    ledgerItemsSold (Checkout c1Store "u2" "DISC-WRONG" 2).2 = 1 :=
  ⟨by decide, by decide⟩

/-- C10: every `Checkout` call, lazily creates the user's cart entry in the
registry; in particular a checkout for a user with no prior cart fails with
`CartEmpty` but leaves behind an empty cart entry, which a subsequent
`ViewCart` then finds (returning the empty cart without further change). -/
theorem checkout_lazily_creates_cart (s : MemoryStore) (u code : String) (n : Nat) :
    (lookupCart (Checkout s u code n).2.carts u).isSome = true ∧
    (lookupCart s.carts u = none →
      Checkout s u code n =
        (.error .cartEmpty, { s with carts := setCart s.carts u ⟨[]⟩ }) ∧
      lookupCart (Checkout s u code n).2.carts u = some (⟨[]⟩ : Cart) ∧
      ViewCart (Checkout s u code n).2 u = ((⟨[]⟩ : Cart), (Checkout s u code n).2)) := by
  constructor
  · rcases Checkout_carts_cases s u code n with h | h <;> rw [h] <;> simp
  · intro hnone
    have hchk : Checkout s u code n =
        (.error .cartEmpty, { s with carts := setCart s.carts u ⟨[]⟩ }) := by
      simp [Checkout, getOrCreateCart_of_lookup_none s u hnone]
    refine ⟨hchk, ?_, ?_⟩
    · rw [hchk]; simp
    · rw [hchk]; simp [ViewCart, getOrCreateCart]

/-- C10 witness: concretely, a checkout on a fresh store (no cart for "u")
fails with `CartEmpty` and creates the retrievable empty cart entry. -/
theorem checkout_lazily_creates_cart_witness :
    lookupCart (NewMemoryStore 3).carts "u" = none ∧
    (Checkout (NewMemoryStore 3) "u" "" 0 =
        (.error .cartEmpty,
          { NewMemoryStore 3 with carts := setCart (NewMemoryStore 3).carts "u" ⟨[]⟩ }) ∧
      lookupCart (Checkout (NewMemoryStore 3) "u" "" 0).2.carts "u" = some (⟨[]⟩ : Cart) ∧
      ViewCart (Checkout (NewMemoryStore 3) "u" "" 0).2 "u" =
        ((⟨[]⟩ : Cart), (Checkout (NewMemoryStore 3) "u" "" 0).2)) :=
  ⟨rfl, (checkout_lazily_creates_cart (NewMemoryStore 3) "u" "" 0).2 rfl⟩

/-- C4: `GenerateDiscount` coincides with the specification-side description
`generateDiscountSpec`: it succeeds exactly when the recorded order count has
reached `nextEligibleOrder` and there is no active unredeemed code, in which
case the fresh code (percentage 10, `eligibleOrderNum = nextEligibleOrder`)
becomes the single active code; otherwise it fails with `NotEligible` and
leaves the store unchanged. -/
theorem generateDiscount_meets_spec (s : MemoryStore) (cs : String) (n : Nat) :
    GenerateDiscount s cs n = generateDiscountSpec s cs n := by
  unfold GenerateDiscount generateDiscountSpec
  by_cases he : (s.orders.length : Int) ≥ s.nextEligibleOrder
  · cases had : s.activeDiscount with
    | none => simp [he, had]
    | some ad => cases hr : ad.isRedeemed <;> simp [he, had, hr]
  · cases had : s.activeDiscount with
    | none => simp [he, had]
    | some ad => cases hr : ad.isRedeemed <;> simp [he, had, hr]

/-- Success characterization of `Checkout`: a returned order snapshots the
pre-checkout cart, its amounts follow the discount arithmetic, the discount
slot was matched when a code string was supplied, and the user's cart is
reset to empty. -/
theorem Checkout_ok (s : MemoryStore) (u code : String) (n : Nat) (o : Order)
    (h : (Checkout s u code n).1 = .ok o) :
    o.items = (getOrCreateCart s u).1.items ∧
    (getOrCreateCart s u).1.items ≠ [] ∧
    o.totalAmount = itemsGross (getOrCreateCart s u).1.items - o.discountValue ∧
    (code = "" → o.discountValue = 0) ∧
    (code ≠ "" → ∃ ad, s.activeDiscount = some ad ∧ ad.code = code ∧
      o.discountValue = itemsGross (getOrCreateCart s u).1.items * (ad.percentage / 100)) ∧
    (Checkout s u code n).2.carts = setCart (getOrCreateCart s u).2.carts u ⟨[]⟩ := by
  by_cases hempty : (getOrCreateCart s u).1.items = []
  · simp [Checkout, hempty] at h
  · by_cases hcode : code = ""
    · subst hcode
      simp [Checkout, finishCheckout, hempty] at h
      subst h
      refine ⟨rfl, hempty, by simp, fun _ => rfl, fun hne => absurd rfl hne, ?_⟩
      simp [Checkout, finishCheckout, hempty]
    · cases had : s.activeDiscount with
      | none =>
          simp [Checkout, finishCheckout, hempty, hcode, had] at h
      | some ad =>
          by_cases hr : ad.isRedeemed = true
          · simp [Checkout, finishCheckout, hempty, hcode, had, hr] at h
          · by_cases hm : ad.code = code
            · simp [Checkout, finishCheckout, hempty, hcode, had, hr, hm] at h
              subst h
              refine ⟨rfl, hempty, by simp, fun he => absurd he hcode, ?_, ?_⟩
              · intro _
                exact ⟨ad, rfl, hm, rfl⟩
              · simp [Checkout, finishCheckout, hempty, hcode, had, hr, hm]
            · simp [Checkout, finishCheckout, hempty, hcode, had, hr, hm] at h

/-- C5: a successful checkout starts from a non-empty cart, resets that
user's cart to an empty one (the registry entry remains), and returns an
order whose item list is, as a multiset, exactly the pre-checkout cart
contents. -/
theorem checkout_empties_cart_and_snapshot (s : MemoryStore) (u code : String)
    (n : Nat) (h : (Checkout s u code n).1.isOk = true) :
    lookupCart (Checkout s u code n).2.carts u = some (⟨[]⟩ : Cart) ∧
    (getOrCreateCart s u).1.items ≠ [] ∧
    (Checkout s u code n).1.toOption.map (fun o => Multiset.ofList o.items) =
      some (Multiset.ofList (getOrCreateCart s u).1.items) := by
  obtain ⟨o, ho⟩ : ∃ o, (Checkout s u code n).1 = .ok o := by
    cases hc : (Checkout s u code n).1 with
    | ok o => exact ⟨o, rfl⟩
    | error e => rw [hc] at h; simp [Except.isOk, Except.toBool] at h
  obtain ⟨hitems, hne, -, -, -, hcarts⟩ := Checkout_ok s u code n o ho
  refine ⟨?_, hne, ?_⟩
  · rw [hcarts]; simp
  · rw [ho]; simp [Except.toOption, hitems]

/-- C5 witness: checking out the concrete one-item cart of `c5Store`
succeeds, empties the cart, and snapshots the single item. -/
theorem checkout_empties_cart_and_snapshot_witness :
    (Checkout c5Store "u" "" 0).1.isOk = true ∧
    (lookupCart (Checkout c5Store "u" "" 0).2.carts "u" = some (⟨[]⟩ : Cart) ∧
      (getOrCreateCart c5Store "u").1.items ≠ [] ∧
      (Checkout c5Store "u" "" 0).1.toOption.map (fun o => Multiset.ofList o.items) =
        some (Multiset.ofList (getOrCreateCart c5Store "u").1.items)) :=
  ⟨rfl, checkout_empties_cart_and_snapshot c5Store "u" "" 0 rfl⟩

/-- C6: for every successful checkout the returned order satisfies
`totalAmount = gross - discountValue` with `gross` the sum of
quantity × unit price over the pre-checkout cart; `discountValue` is
`gross × (percentage/100)` of the active code when a (necessarily matching)
code string was supplied, and 0 when no code string was supplied.  The
spec's $50 / 10% instance is this statement at `gross = 50`,
`percentage = 10`. -/
theorem checkout_discount_arithmetic (s : MemoryStore) (u code : String)
    (n : Nat) (h : (Checkout s u code n).1.isOk = true) :
    (Checkout s u code n).1.toOption.map (·.totalAmount) =
      (Checkout s u code n).1.toOption.map
        (fun o => itemsGross (getOrCreateCart s u).1.items - o.discountValue) ∧
    (code = "" →
      (Checkout s u code n).1.toOption.map (·.discountValue) = some 0) ∧
    (code ≠ "" → ∃ ad, s.activeDiscount = some ad ∧ ad.code = code ∧
      (Checkout s u code n).1.toOption.map (·.discountValue) =
        some (itemsGross (getOrCreateCart s u).1.items * (ad.percentage / 100))) := by
  obtain ⟨o, ho⟩ : ∃ o, (Checkout s u code n).1 = .ok o := by
    cases hc : (Checkout s u code n).1 with
    | ok o => exact ⟨o, rfl⟩
    | error e => rw [hc] at h; simp [Except.isOk, Except.toBool] at h
  obtain ⟨-, -, htot, hzero, hsome, -⟩ := Checkout_ok s u code n o ho
  refine ⟨?_, ?_, ?_⟩
  · rw [ho]; simp [Except.toOption, htot]
  · intro hc
    rw [ho]; simp [Except.toOption, hzero hc]
  · intro hc
    obtain ⟨ad, had, hadc, hdv⟩ := hsome hc
    exact ⟨ad, had, hadc, by rw [ho]; simp [Except.toOption, hdv]⟩

/-- C6 witness: the spec's concrete scenario — `c6Store` holds an active 10%
code "DISC-X" and a $50 cart for u2; checking out with that code succeeds,
and the theorem instantiates to `totalAmount = 50 - discountValue` with
`discountValue = 50 × (10/100)`. -/
theorem checkout_discount_arithmetic_witness :
    (Checkout c6Store "u2" "DISC-X" 2).1.isOk = true ∧
    ((Checkout c6Store "u2" "DISC-X" 2).1.toOption.map (·.totalAmount) =
        (Checkout c6Store "u2" "DISC-X" 2).1.toOption.map
          (fun o => itemsGross (getOrCreateCart c6Store "u2").1.items - o.discountValue) ∧
      ("DISC-X" = "" →
        (Checkout c6Store "u2" "DISC-X" 2).1.toOption.map (·.discountValue) = some 0) ∧
      ("DISC-X" ≠ "" → ∃ ad, c6Store.activeDiscount = some ad ∧ ad.code = "DISC-X" ∧
        (Checkout c6Store "u2" "DISC-X" 2).1.toOption.map (·.discountValue) =
          some (itemsGross (getOrCreateCart c6Store "u2").1.items * (ad.percentage / 100)))) :=
  ⟨rfl, checkout_discount_arithmetic c6Store "u2" "DISC-X" 2 rfl⟩

/-! Lemmas about the upsert performed by `AddItem`, for claim C8. -/

theorem findItem_upsertItem_none (items : List CartItem) (item : CartItem)
    (h : findItem items item.sku = none) :
    findItem (upsertItem items item) item.sku = some item := by
  induction items with
  | nil => simp [upsertItem, findItem]
  | cons x xs ih =>
      by_cases hx : x.sku = item.sku
      · simp [findItem, hx] at h
      · simp only [findItem, if_neg hx] at h
        simp [upsertItem, findItem, hx, ih h]

theorem findItem_upsertItem_some (items : List CartItem) (item e : CartItem)
    (h : findItem items item.sku = some e) :
    findItem (upsertItem items item) item.sku =
      some { e with quantity := e.quantity + item.quantity
                    price := item.price
                    name := item.name } := by
  induction items with
  | nil => simp [findItem] at h
  | cons x xs ih =>
      by_cases hx : x.sku = item.sku
      · simp only [findItem, if_pos hx, Option.some.injEq] at h
        subst h
        simp [upsertItem, findItem, hx]
      · simp only [findItem, if_neg hx] at h
        simp [upsertItem, findItem, hx, ih h]

theorem getOrCreateCart_AddItem (s : MemoryStore) (u : String) (it : CartItem) :
    (getOrCreateCart (AddItem s u it).2 u).1 = (AddItem s u it).1 := by
  simp [AddItem, getOrCreateCart]

/-- Accumulation over a run of same-sku `AddItem` calls, starting from a cart
that already holds an entry `e` for that sku: the quantities add up and the
name and price of the last call win (`e`'s values when the run is empty). -/
theorem addItems_accumulate (u k : String) (adds : List CartItem) :
    (∀ it ∈ adds, it.sku = k) →
    ∀ (s : MemoryStore) (e : CartItem),
      findItem (getOrCreateCart s u).1.items k = some e →
      findItem (getOrCreateCart (addItems s u adds) u).1.items k =
        some { sku := e.sku
               name := (adds.map (·.name)).getLastD e.name
               price := (adds.map (·.price)).getLastD e.price
               quantity := e.quantity + (adds.map (·.quantity)).sum } := by
  induction adds with
  | nil =>
      intro _ s e h
      simpa [addItems] using h
  | cons a rest ih =>
      intro hsku s e h
      have ha : a.sku = k := hsku a (by simp)
      have hstep : findItem (getOrCreateCart (AddItem s u a).2 u).1.items k =
          some { e with quantity := e.quantity + a.quantity
                        price := a.price
                        name := a.name } := by
        rw [getOrCreateCart_AddItem]
        have h' : findItem (getOrCreateCart s u).1.items a.sku = some e := by
          rwa [ha]
        have := findItem_upsertItem_some (getOrCreateCart s u).1.items a e h'
        rw [ha] at this
        simpa [AddItem] using this
      have hrest := ih (fun it hit => hsku it (by simp [hit]))
        (AddItem s u a).2
        { e with quantity := e.quantity + a.quantity, price := a.price, name := a.name }
        hstep
      simp only [addItems]
      rw [hrest]
      simp only [List.map_cons, List.getLastD_cons, List.sum_cons, add_assoc]

/-- C8: a non-empty run of `AddItem` calls that all carry sku `k`, for a user
whose cart does not yet hold `k`, produces a single cart entry for `k` whose
quantity is the sum of all supplied quantities and whose name and price are
those of the last call. -/
theorem addItem_same_sku_accumulates (s : MemoryStore) (u k : String)
    (a : CartItem) (rest : List CartItem)
    (hsku : ∀ it ∈ a :: rest, it.sku = k)
    (h0 : findItem (getOrCreateCart s u).1.items k = none) :
    findItem (getOrCreateCart (addItems s u (a :: rest)) u).1.items k =
      some { sku := k
             name := ((a :: rest).map (·.name)).getLastD ""
             price := ((a :: rest).map (·.price)).getLastD 0
             quantity := ((a :: rest).map (·.quantity)).sum } := by
  have ha : a.sku = k := hsku a (by simp)
  have hstep : findItem (getOrCreateCart (AddItem s u a).2 u).1.items k = some a := by
    rw [getOrCreateCart_AddItem]
    have h' : findItem (getOrCreateCart s u).1.items a.sku = none := by rwa [ha]
    have := findItem_upsertItem_none (getOrCreateCart s u).1.items a h'
    rw [ha] at this
    simpa [AddItem] using this
  have hrest := addItems_accumulate u k rest
    (fun it hit => hsku it (by simp [hit])) (AddItem s u a).2 a hstep
  simp only [addItems]
  rw [hrest, ha]
  simp only [List.map_cons, List.getLastD_cons, List.sum_cons]

/-- C8 witness: two adds of sku "SKU1" (quantities 1 and 3, different names
and prices) yield one entry with quantity 4 and the second call's name and
price. -/
theorem addItem_same_sku_accumulates_witness :
    (∀ it ∈ [itemA, ({ sku := "SKU1", name := "Widget v2", price := 12, quantity := 3 } : CartItem)],
        it.sku = "SKU1") ∧
    findItem (getOrCreateCart (NewMemoryStore 3) "u").1.items "SKU1" = none ∧
    findItem (getOrCreateCart
        (addItems (NewMemoryStore 3) "u"
          [itemA, { sku := "SKU1", name := "Widget v2", price := 12, quantity := 3 }]) "u").1.items
        "SKU1" =
      some { sku := "SKU1"
             name := ([itemA, ({ sku := "SKU1", name := "Widget v2", price := 12, quantity := 3 } : CartItem)].map (·.name)).getLastD ""
             price := ([itemA, ({ sku := "SKU1", name := "Widget v2", price := 12, quantity := 3 } : CartItem)].map (·.price)).getLastD 0
             quantity := ([itemA, ({ sku := "SKU1", name := "Widget v2", price := 12, quantity := 3 } : CartItem)].map (·.quantity)).sum } :=
  ⟨by decide, rfl,
    addItem_same_sku_accumulates (NewMemoryStore 3) "u" "SKU1" itemA
      [{ sku := "SKU1", name := "Widget v2", price := 12, quantity := 3 }]
      (by decide) rfl⟩

/-! Frame lemmas for claim C9: which operations can touch
`nextEligibleOrder` and `nthOrderThreshold`. -/

@[simp]
theorem AddItem_nextEligibleOrder (s : MemoryStore) (u : String) (it : CartItem) :
    (AddItem s u it).2.nextEligibleOrder = s.nextEligibleOrder := by
  simp [AddItem]

@[simp]
theorem AddItem_nthOrderThreshold (s : MemoryStore) (u : String) (it : CartItem) :
    (AddItem s u it).2.nthOrderThreshold = s.nthOrderThreshold := by
  simp [AddItem]

@[simp]
theorem AddItem_activeDiscount (s : MemoryStore) (u : String) (it : CartItem) :
    (AddItem s u it).2.activeDiscount = s.activeDiscount := by
  simp [AddItem]

@[simp]
theorem ViewCart_nextEligibleOrder (s : MemoryStore) (u : String) :
    (ViewCart s u).2.nextEligibleOrder = s.nextEligibleOrder := by
  simp [ViewCart]

@[simp]
theorem ViewCart_nthOrderThreshold (s : MemoryStore) (u : String) :
    (ViewCart s u).2.nthOrderThreshold = s.nthOrderThreshold := by
  simp [ViewCart]

@[simp]
theorem ViewCart_activeDiscount (s : MemoryStore) (u : String) :
    (ViewCart s u).2.activeDiscount = s.activeDiscount := by
  simp [ViewCart]

@[simp]
theorem GenerateDiscount_nextEligibleOrder (s : MemoryStore) (cs : String) (n : Nat) :
    (GenerateDiscount s cs n).2.nextEligibleOrder = s.nextEligibleOrder := by
  simp only [GenerateDiscount]
  split <;> rfl

@[simp]
theorem GenerateDiscount_nthOrderThreshold (s : MemoryStore) (cs : String) (n : Nat) :
    (GenerateDiscount s cs n).2.nthOrderThreshold = s.nthOrderThreshold := by
  simp only [GenerateDiscount]
  split <;> rfl

theorem Checkout_nthOrderThreshold (s : MemoryStore) (u code : String) (n : Nat) :
    (Checkout s u code n).2.nthOrderThreshold = s.nthOrderThreshold := by
  simp only [Checkout, finishCheckout]
  split
  · simp
  · split
    · simp
    · split
      · simp
      · split
        · simp
        · split
          · simp
          · simp

/-- Case analysis of `Checkout`'s effect on `nextEligibleOrder`: unchanged
unless the checkout successfully redeemed a supplied code, in which case it
advances by exactly `nthOrderThreshold`. -/
theorem Checkout_nextEligibleOrder_cases (s : MemoryStore) (u code : String) (n : Nat) :
    ((Checkout s u code n).2.nextEligibleOrder = s.nextEligibleOrder ∧
      ((Checkout s u code n).1.isOk = false ∨ code = "")) ∨
    ((Checkout s u code n).2.nextEligibleOrder = s.nextEligibleOrder + s.nthOrderThreshold ∧
      code ≠ "" ∧ (Checkout s u code n).1.isOk = true) := by
  by_cases hempty : (getOrCreateCart s u).1.items = []
  · left
    constructor
    · simp [Checkout, hempty]
    · left; simp [Checkout, hempty, Except.isOk, Except.toBool]
  · by_cases hcode : code = ""
    · left
      constructor
      · simp [Checkout, finishCheckout, hempty, hcode]
      · right; exact hcode
    · cases had : s.activeDiscount with
      | none =>
          left
          constructor
          · simp [Checkout, hempty, hcode, had]
          · left; simp [Checkout, hempty, hcode, had, Except.isOk, Except.toBool]
      | some ad =>
          by_cases hr : ad.isRedeemed = true
          · left
            constructor
            · simp [Checkout, hempty, hcode, had, hr]
            · left; simp [Checkout, hempty, hcode, had, hr, Except.isOk, Except.toBool]
          · by_cases hm : ad.code = code
            · right
              refine ⟨?_, hcode, ?_⟩
              · simp [Checkout, finishCheckout, hempty, hcode, had, hr, hm]
              · simp [Checkout, finishCheckout, hempty, hcode, had, hr, hm,
                  Except.isOk, Except.toBool]
            · left
              constructor
              · simp [Checkout, hempty, hcode, had, hr, hm]
              · left
                simp [Checkout, hempty, hcode, had, hr, hm, Except.isOk, Except.toBool]

theorem applyOp_nthOrderThreshold (s : MemoryStore) (op : StoreOp) :
    (applyOp s op).nthOrderThreshold = s.nthOrderThreshold := by
  cases op <;> simp [applyOp, Checkout_nthOrderThreshold]

/-- Every constructed store has a positive threshold (a non-positive argument
is replaced by the default 5), so claim C9's positivity hypothesis holds in
every reachable store. -/
theorem NewMemoryStore_threshold_pos (k : Int) :
    0 < (NewMemoryStore k).nthOrderThreshold := by
  by_cases h : k ≤ 0
  · simp [NewMemoryStore, h]
  · simp [NewMemoryStore, h]
    omega

theorem runOps_nthOrderThreshold (ops : List StoreOp) :
    ∀ s : MemoryStore, (runOps s ops).nthOrderThreshold = s.nthOrderThreshold := by
  induction ops with
  | nil => intro s; rfl
  | cons op rest ih =>
      intro s
      simp only [runOps]
      rw [ih, applyOp_nthOrderThreshold]

theorem applyOp_nextEligibleOrder_cases (s : MemoryStore) (op : StoreOp) :
    (applyOp s op).nextEligibleOrder = s.nextEligibleOrder ∨
    ((applyOp s op).nextEligibleOrder = s.nextEligibleOrder + s.nthOrderThreshold ∧
      opIsSuccessfulRedemption s op) := by
  cases op with
  | checkout u c n =>
      rcases Checkout_nextEligibleOrder_cases s u c n with ⟨h1, h2⟩ | ⟨h1, h2, h3⟩
      · left; exact h1
      · right; exact ⟨h1, h2, h3⟩
  | addItem u it => left; simp [applyOp]
  | viewCart u => left; simp [applyOp]
  | generateDiscount cs n => left; simp [applyOp]
  | getStats => left; rfl

theorem applyOp_nextEligibleOrder_mono (s : MemoryStore) (op : StoreOp)
    (hth : 0 < s.nthOrderThreshold) :
    s.nextEligibleOrder ≤ (applyOp s op).nextEligibleOrder := by
  rcases applyOp_nextEligibleOrder_cases s op with h | ⟨h, -⟩
  · rw [h]
  · rw [h]; linarith

theorem runOps_nextEligibleOrder_mono (ops : List StoreOp) :
    ∀ s : MemoryStore, 0 < s.nthOrderThreshold →
      s.nextEligibleOrder ≤ (runOps s ops).nextEligibleOrder := by
  induction ops with
  | nil => intro s _; simp [runOps]
  | cons op rest ih =>
      intro s hth
      simp only [runOps]
      calc s.nextEligibleOrder
          ≤ (applyOp s op).nextEligibleOrder := applyOp_nextEligibleOrder_mono s op hth
        _ ≤ (runOps (applyOp s op) rest).nextEligibleOrder := by
            refine ih _ ?_
            rw [applyOp_nthOrderThreshold]
            exact hth

/-- C9: with a positive configured threshold, `nextEligibleOrder` never
decreases across any single operation or any operation sequence; it stays
exactly equal unless the operation is a checkout that successfully redeemed a
code, in which case it advances by exactly `nthOrderThreshold`. -/
theorem nextEligibleOrder_monotone (s : MemoryStore) (op : StoreOp)
    (ops : List StoreOp) (hth : 0 < s.nthOrderThreshold) :
    s.nextEligibleOrder ≤ (applyOp s op).nextEligibleOrder ∧
    s.nextEligibleOrder ≤ (runOps s ops).nextEligibleOrder ∧
    (¬opIsSuccessfulRedemption s op →
      (applyOp s op).nextEligibleOrder = s.nextEligibleOrder) ∧
    (opIsSuccessfulRedemption s op →
      (applyOp s op).nextEligibleOrder = s.nextEligibleOrder + s.nthOrderThreshold) := by
  refine ⟨applyOp_nextEligibleOrder_mono s op hth,
    runOps_nextEligibleOrder_mono ops s hth, ?_, ?_⟩
  · intro hnot
    rcases applyOp_nextEligibleOrder_cases s op with h | ⟨-, hr⟩
    · exact h
    · exact absurd hr hnot
  · intro hredeem
    rcases applyOp_nextEligibleOrder_cases s op with h | ⟨h, -⟩
    · cases op with
      | checkout u c n =>
          obtain ⟨hc, hok⟩ := hredeem
          rcases Checkout_nextEligibleOrder_cases s u c n with ⟨-, h2⟩ | ⟨h1, -, -⟩
          · rcases h2 with h2 | h2
            · rw [hok] at h2; cases h2
            · exact absurd h2 hc
          · exact h1
      | addItem u it => cases hredeem
      | viewCart u => cases hredeem
      | generateDiscount cs n => cases hredeem
      | getStats => cases hredeem
    · exact h

/-- C9 witness: on the concrete store `c1Store` (threshold 1), the
redeeming checkout of u2 with the active code advances `nextEligibleOrder`
by exactly the threshold, and no operation ever decreases it. -/
theorem nextEligibleOrder_monotone_witness :
    0 < c1Store.nthOrderThreshold ∧
    (c1Store.nextEligibleOrder ≤
        (applyOp c1Store (.checkout "u2" "DISC-AAAAAA" 2)).nextEligibleOrder ∧
      c1Store.nextEligibleOrder ≤
        (runOps c1Store [.checkout "u2" "DISC-AAAAAA" 2]).nextEligibleOrder ∧
      (¬opIsSuccessfulRedemption c1Store (.checkout "u2" "DISC-AAAAAA" 2) →
        (applyOp c1Store (.checkout "u2" "DISC-AAAAAA" 2)).nextEligibleOrder =
          c1Store.nextEligibleOrder) ∧
      (opIsSuccessfulRedemption c1Store (.checkout "u2" "DISC-AAAAAA" 2) →
        (applyOp c1Store (.checkout "u2" "DISC-AAAAAA" 2)).nextEligibleOrder =
          c1Store.nextEligibleOrder + c1Store.nthOrderThreshold)) :=
  ⟨by decide,
    nextEligibleOrder_monotone c1Store (.checkout "u2" "DISC-AAAAAA" 2)
      [.checkout "u2" "DISC-AAAAAA" 2] (by decide)⟩

/-! Lemmas for claim C7: what happens to the active discount slot. -/

theorem Checkout_activeDiscount_cases (s : MemoryStore) (u code : String) (n : Nat) :
    (Checkout s u code n).2.activeDiscount = s.activeDiscount ∨
    (Checkout s u code n).2.activeDiscount = none := by
  simp only [Checkout, finishCheckout]
  split
  · left; simp
  · split
    · left; simp
    · split
      · left; simp
      · split
        · left; simp
        · split
          · left; simp
          · right; rfl

theorem activeAvoids_applyOp (c : String) (s : MemoryStore) (op : StoreOp)
    (h : activeAvoids c s) (hop : opGenerates c op = false) :
    activeAvoids c (applyOp s op) := by
  cases op with
  | addItem u it =>
      intro ad had
      refine h ad ?_
      simpa [applyOp] using had
  | viewCart u =>
      intro ad had
      refine h ad ?_
      simpa [applyOp] using had
  | getStats => exact h
  | generateDiscount cs n =>
      intro ad had
      have hcs : ¬cs = c := by simpa [opGenerates] using hop
      simp only [applyOp, GenerateDiscount] at had
      split at had
      · exact h ad had
      · simp only [Option.some.injEq] at had
        subst had
        exact ⟨rfl, hcs⟩
  | checkout u code n =>
      intro ad had
      simp only [applyOp] at had
      rcases Checkout_activeDiscount_cases s u code n with hcase | hcase
      · rw [hcase] at had
        exact h ad had
      · rw [hcase] at had
        cases had

theorem activeAvoids_runOps (c : String) (ops : List StoreOp) :
    ∀ s : MemoryStore, activeAvoids c s →
      (∀ op ∈ ops, opGenerates c op = false) →
      activeAvoids c (runOps s ops) := by
  induction ops with
  | nil => intro s h _; simpa [runOps] using h
  | cons op rest ih =>
      intro s h hops
      simp only [runOps]
      exact ih _ (activeAvoids_applyOp c s op h (hops op (by simp)))
        (fun op' hop' => hops op' (by simp [hop']))

theorem Checkout_ok_code_clears_active (s : MemoryStore) (u code : String) (n : Nat)
    (h : (Checkout s u code n).1.isOk = true) (hc : code ≠ "") :
    (Checkout s u code n).2.activeDiscount = none := by
  by_cases hempty : (getOrCreateCart s u).1.items = []
  · simp [Checkout, hempty, Except.isOk, Except.toBool] at h
  · cases had : s.activeDiscount with
    | none => simp [Checkout, hempty, hc, had, Except.isOk, Except.toBool] at h
    | some ad =>
        by_cases hr : ad.isRedeemed = true
        · simp [Checkout, hempty, hc, had, hr, Except.isOk, Except.toBool] at h
        · by_cases hm : ad.code = code
          · simp [Checkout, finishCheckout, hempty, hc, had, hr, hm]
          · simp [Checkout, hempty, hc, had, hr, hm, Except.isOk, Except.toBool] at h

theorem Checkout_code_fails_of_activeAvoids (s : MemoryStore) (u c : String) (n : Nat)
    (hc : c ≠ "") (hcart : (getOrCreateCart s u).1.items ≠ [])
    (h : activeAvoids c s) :
    (Checkout s u c n).1 = .error .discountNotActive ∨
    (Checkout s u c n).1 = .error .discountMismatch := by
  cases had : s.activeDiscount with
  | none =>
      left
      simp [Checkout, hcart, hc, had]
  | some ad =>
      obtain ⟨hr, hcode⟩ := h ad had
      right
      simp [Checkout, hcart, hc, had, hr, hcode]

/-- C7 counterexample: the source never checks freshly generated codes
against history, so the random generator may issue a string that was already
redeemed.  In `c7Trace` the code "DISC-AAAAAA" is generated, successfully
redeemed (first conjunct), generated again, and then a later checkout
supplying the very same string succeeds again (second conjunct) — the claim
"a redemption of the same code string never succeeds twice" is false as
stated. -/
theorem same_code_string_redeems_twice :
    (Checkout (runOps (NewMemoryStore 1) (c7Trace.take 4)) "u" "DISC-AAAAAA" 2).1.isOk
      = true ∧
    ((runOps (NewMemoryStore 1) (c7Trace.take 5)).discountHistory.map (·.code))
      = ["DISC-AAAAAA"] ∧
    (Checkout (runOps (NewMemoryStore 1) c7Trace) "u" "DISC-AAAAAA" 4).1.isOk = true :=
  ⟨by decide, by decide, by decide⟩

/-- C7 (amended): after a checkout successfully redeems the non-empty code
string `c`, every later checkout supplying `c` fails with `NotActive` or
`Mismatch` (given a non-empty cart) — provided none of the intervening
operations is a `GenerateDiscount` call whose random generator returned the
same string `c` again. -/
theorem redeemed_code_never_succeeds_again (s0 : MemoryStore) (u0 c : String)
    (n0 : Nat) (hred : (Checkout s0 u0 c n0).1.isOk = true) (hc : c ≠ "")
    (ops : List StoreOp) (hops : ∀ op ∈ ops, opGenerates c op = false)
    (u : String) (n : Nat)
    (hcart : (getOrCreateCart (runOps (Checkout s0 u0 c n0).2 ops) u).1.items ≠ []) :
    (Checkout (runOps (Checkout s0 u0 c n0).2 ops) u c n).1 =
        .error .discountNotActive ∨
    (Checkout (runOps (Checkout s0 u0 c n0).2 ops) u c n).1 =
        .error .discountMismatch := by
  have h1 : (Checkout s0 u0 c n0).2.activeDiscount = none :=
    Checkout_ok_code_clears_active s0 u0 c n0 hred hc
  have h2 : activeAvoids c (Checkout s0 u0 c n0).2 := by
    intro ad had
    rw [h1] at had
    cases had
  exact Checkout_code_fails_of_activeAvoids _ u c n hc hcart
    (activeAvoids_runOps c ops _ h2 hops)

/-- C7 witness: concretely redeem "DISC-AAAAAA" in the store built by the
first four steps of `c7Trace`, run one more `AddItem`, and the repeated
checkout with the same string fails with `NotActive`. -/
theorem redeemed_code_never_succeeds_again_witness :
    (Checkout (runOps (NewMemoryStore 1) (c7Trace.take 4)) "u" "DISC-AAAAAA" 2).1.isOk
      = true ∧
    "DISC-AAAAAA" ≠ "" ∧
    (getOrCreateCart
        (runOps (Checkout (runOps (NewMemoryStore 1) (c7Trace.take 4)) "u"
            "DISC-AAAAAA" 2).2
          [.addItem "u" itemA]) "u").1.items ≠ [] ∧
    ((Checkout
          (runOps (Checkout (runOps (NewMemoryStore 1) (c7Trace.take 4)) "u"
              "DISC-AAAAAA" 2).2
            [.addItem "u" itemA]) "u" "DISC-AAAAAA" 5).1 =
        .error .discountNotActive ∨
      (Checkout
          (runOps (Checkout (runOps (NewMemoryStore 1) (c7Trace.take 4)) "u"
              "DISC-AAAAAA" 2).2
            [.addItem "u" itemA]) "u" "DISC-AAAAAA" 5).1 =
        .error .discountMismatch) :=
  ⟨by decide, by decide, by decide,
    redeemed_code_never_succeeds_again
      (runOps (NewMemoryStore 1) (c7Trace.take 4)) "u" "DISC-AAAAAA" 2
      (by decide) (by decide) [.addItem "u" itemA] (by decide) "u" 5 (by decide)⟩

end Store
